import Mathlib

/-!
Verification of the Oracle Sentinel SDK payment-gated request protocol.

The definitions below are a shallow embedding of `oracle_sentinel/client.py`
and `oracle_sentinel/exceptions.py`: the x402 challenge parsing, the balance
probe, the USDC transfer-transaction builder, the payment-proof header codec,
and the request orchestrator with its single payment retry.  HTTP transport
and the ledger RPC are modelled as explicit inputs (a `WorldM` record holding
the outcome of each I/O point), and the I/O actions the client performs are
recorded in an effect trace.  Python `float` values are modelled exactly as
dyadic rationals (an IEEE-754 binary64 value is `m * 2^e`), with rounding to
53 mantissa bits implementing round-to-nearest, ties-to-even.
-/

/-! ## Python float values (IEEE-754 binary64) as dyadics -/

/-- Value `m * 2^e`; every finite Python float is exactly of this form. -/
structure PyFloat where
  m : Int
  e : Int
deriving DecidableEq, Repr

/-- Number of bits of `n` (0 for 0), via fuel recursion so the kernel can
evaluate it. -/
def bitLenF : Nat → Nat → Nat
  | 0, _ => 0
  | f + 1, n => if n = 0 then 0 else bitLenF f (n / 2) + 1

def bitLen (n : Nat) : Nat := bitLenF n n

/-- Round `n / 2^k` to the nearest integer, ties to even (`k ≥ 1`). -/
def roundMag (n k : Nat) : Nat :=
  let q := n / 2 ^ k
  let r := n % 2 ^ k
  let half := 2 ^ (k - 1)
  if r < half then q
  else if half < r then q + 1
  else if q % 2 = 0 then q else q + 1

/-- Round the exact dyadic `m * 2^e` to 53 mantissa bits (binary64
round-to-nearest, ties-to-even; normal range). -/
def fitDouble (m : Int) (e : Int) : PyFloat :=
  let n := m.natAbs
  let L := bitLen n
  if L ≤ 53 then ⟨m, e⟩
  else
    let k := L - 53
    let q := roundMag n k
    ⟨if m < 0 then -(q : Int) else (q : Int), e + (k : Int)⟩

/-- Python `balance * 1_000_000` on a float: `1_000_000` is exactly
representable, so the result is the correctly rounded product. -/
def pyMulMillion (d : PyFloat) : PyFloat := fitDouble (d.m * 1000000) d.e

/-- Python `int(x)` on a float: truncation toward zero. -/
def pyTrunc (d : PyFloat) : Int :=
  if 0 ≤ d.e then d.m * ((2 ^ d.e.toNat : Nat) : Int)
  else
    let k := (-d.e).toNat
    if 0 ≤ d.m then ((d.m.toNat / 2 ^ k : Nat) : Int)
    else -((d.m.natAbs / 2 ^ k : Nat) : Int)

/-- Exact rational value of a float, for specification-side statements. -/
def PyFloat.toRat (d : PyFloat) : ℚ := (d.m : ℚ) * (2 : ℚ) ^ d.e

def pyZero : PyFloat := ⟨0, 0⟩

/-! ## Exception classes (`exceptions.py`)

`OracleSentinelError` is the base; every other SDK error derives from it.
`IndexError` is a Python builtin, outside the SDK hierarchy. -/

inductive ErrClass
  | exceptionCls
  | oracleSentinelCls
  | paymentRequiredCls
  | insufficientBalanceCls
  | authenticationCls
  | networkCls
  | transactionCls
  | indexErrorCls
deriving DecidableEq, Repr

def parentCls : ErrClass → Option ErrClass
  | .exceptionCls => none
  | .oracleSentinelCls => some .exceptionCls
  | .paymentRequiredCls => some .oracleSentinelCls
  | .insufficientBalanceCls => some .oracleSentinelCls
  | .authenticationCls => some .oracleSentinelCls
  | .networkCls => some .oracleSentinelCls
  | .transactionCls => some .oracleSentinelCls
  | .indexErrorCls => some .exceptionCls

/-- Python subclass relation on the (depth-two) exception hierarchy. -/
def isSubclassOf (c d : ErrClass) : Bool :=
  c = d ||
    match parentCls c with
    | some p =>
      p = d ||
        match parentCls p with
        | some g => g = d
        | none => false
    | none => false

/-- An `except D` handler catches a raised instance of class `c` iff `c`
is a subclass of `D`. -/
def catches (handler raised : ErrClass) : Bool := isSubclassOf raised handler

/-- Raised errors with their payloads, as constructed by the client. -/
inductive SdkError
  | oracleSentinel (msg : String)
  | paymentRequired (amount : Nat)
  | insufficientBalance (required : Nat) (available : Int)
  | authentication (msg : String)
  | network (msg : String)
  | indexError
deriving DecidableEq, Repr

def SdkError.cls : SdkError → ErrClass
  | .oracleSentinel _ => .oracleSentinelCls
  | .paymentRequired _ => .paymentRequiredCls
  | .insufficientBalance _ _ => .insufficientBalanceCls
  | .authentication _ => .authenticationCls
  | .network _ => .networkCls
  | .indexError => .indexErrorCls

/-- Display field `PaymentRequiredError.amount_dollars = amount / 1_000_000`
(`exceptions.py`); user-facing only. -/
def paymentRequiredAmountDollars (amount : Nat) : ℚ := (amount : ℚ) / 1000000

/-! ## Wire data model -/

/-- One element of the 402 challenge's `accepts` array; `none` marks an
absent JSON key (`feePayer` reads `extra.feePayer`). -/
structure PaymentOption where
  maxAmountRequired : Option Nat
  payTo : Option String
  asset : Option String
  feePayer : Option String
  network : Option String
  scheme : Option String
deriving DecidableEq, Repr, Inhabited

/-- A parsed 402 response body; `accepts = none` means the key is absent. -/
structure Challenge where
  accepts : Option (List PaymentOption)
deriving DecidableEq, Repr, Inhabited

/-- The requirement extracted from the first accepted option
(`_create_x402_payment`, lines 323-329). -/
structure Requirement where
  amount : Nat
  payTo : String
  asset : String
  feePayer : String
  network : Option String
  scheme : String
deriving DecidableEq, Repr

/-- One entry of the `getTokenAccountsByOwner` result; `uiAmount` is the
display-unit amount the RPC reports, a JSON number parsed to a Python float
(`none` for JSON `null`). -/
structure TokenAccount where
  uiAmount : Option PyFloat
deriving DecidableEq, Repr

structure HttpResp where
  status : Nat
  body : Challenge
  text : String
deriving DecidableEq, Repr

deriving instance DecidableEq for Except

/-- Outcomes of the I/O points one logical call can touch.  `.error` on the
HTTP fields is a `requests.RequestException` (message attached); `.error` on
the ledger field is any exception raised while fetching the balance. -/
structure WorldM where
  first : Except String HttpResp
  retry : Except String HttpResp
  ledger : Except Unit (List TokenAccount)
  blockhash : String
deriving DecidableEq, Repr

/-- I/O actions the client performs, in order. -/
inductive EffectM
  | httpSend (withPayment : Bool)
  | ledgerRead
  | blockhashFetch
  | txBuild (amount : Nat) (destination feePayer : String)
deriving DecidableEq, Repr

/-! ## Base64 (Python `base64.b64encode` / `b64decode`) -/

def b64Table : List Char :=
  ("ABCDEFGHIJKLMNOPQRSTUVWXYZabcdefghijklmnopqrstuvwxyz0123456789+/").toList

def b64Char (n : Nat) : Char := b64Table.getD n 'A'

def b64IndexAux : List Char → Nat → Char → Option Nat
  | [], _, _ => none
  | t :: ts, i, c => if t = c then some i else b64IndexAux ts (i + 1) c

def b64Index (c : Char) : Option Nat := b64IndexAux b64Table 0 c

/-- Standard base64 of a byte list, with `=` padding. -/
def b64EncodeBytes : List Nat → List Char
  | [] => []
  | [b1] => [b64Char (b1 / 4), b64Char (b1 % 4 * 16), '=', '=']
  | [b1, b2] =>
    [b64Char (b1 / 4), b64Char (b1 % 4 * 16 + b2 / 16), b64Char (b2 % 16 * 4), '=']
  | b1 :: b2 :: b3 :: rest =>
    b64Char (b1 / 4) :: b64Char (b1 % 4 * 16 + b2 / 16) ::
      b64Char (b2 % 16 * 4 + b3 / 64) :: b64Char (b3 % 64) :: b64EncodeBytes rest

/-- Base64 decoding: four characters at a time, padding only at the end. -/
def b64DecodeBytes : List Char → Option (List Nat)
  | [] => some []
  | c1 :: c2 :: c3 :: c4 :: rest =>
    match b64Index c1, b64Index c2 with
    | some n1, some n2 =>
      if c3 = '=' then
        if c4 = '=' ∧ rest = [] then some [n1 * 4 + n2 / 16] else none
      else
        match b64Index c3 with
        | some n3 =>
          if c4 = '=' then
            if rest = [] then some [n1 * 4 + n2 / 16, n2 % 16 * 16 + n3 / 4] else none
          else
            match b64Index c4, b64DecodeBytes rest with
            | some n4, some tail =>
              some ((n1 * 4 + n2 / 16) :: (n2 % 16 * 16 + n3 / 4) :: (n3 % 4 * 64 + n4) :: tail)
            | _, _ => none
        | none => none
    | _, _ => none
  | _ => none

/-- Characters that JSON serialization leaves unescaped other than quote and
backslash: printable ASCII. -/
def plainChar (c : Char) : Bool :=
  32 ≤ c.toNat && c.toNat ≤ 126 && !(c == '"') && !(c == '\\')


/-! ## JSON envelope (`json.dumps` of the x402 payment payload)

`_create_x402_payment` serializes
`\x7b"x402Version": 2, "scheme": s, "network": n, "payload": \x7b"transaction": t\x7d\x7d`
with `json.dumps` defaults (`ensure_ascii`, `", "` / `": "` separators, keys
in insertion order). -/

def hexDigitChar (n : Nat) : Char := ("0123456789abcdef").toList.getD n '0'

/-- Escaping of one character, following CPython's `json` encoder with
`ensure_ascii=True`: quote, backslash and control characters get their short
escapes, anything outside printable ASCII becomes `\uXXXX`. -/
def jsonEscapeChar (c : Char) : List Char :=
  if c = '"' then ['\\', '"']
  else if c = '\\' then ['\\', '\\']
  else if c = '\n' then ['\\', 'n']
  else if c = '\t' then ['\\', 't']
  else if c = '\r' then ['\\', 'r']
  else if c.toNat = 8 then ['\\', 'b']
  else if c.toNat = 12 then ['\\', 'f']
  else if c.toNat < 32 ∨ 126 < c.toNat then
    ['\\', 'u', hexDigitChar (c.toNat / 4096 % 16), hexDigitChar (c.toNat / 256 % 16),
      hexDigitChar (c.toNat / 16 % 16), hexDigitChar (c.toNat % 16)]
  else [c]

/-- A JSON string literal: quote, escaped content, quote. -/
def jsonStringLit (s : List Char) : List Char :=
  '"' :: s.flatMap jsonEscapeChar ++ ['"']

/-- The serialized payment payload (`payload` dict of lines 344-351). -/
structure ProofEnvelope where
  x402Version : Nat
  scheme : List Char
  network : Option (List Char)
  transaction : List Char
deriving DecidableEq, Repr

def envKeyVersion : List Char := ("\x7b\"x402Version\": ").toList
def envKeyScheme : List Char := (", \"scheme\": ").toList
def envKeyNetwork : List Char := (", \"network\": ").toList
def envKeyPayload : List Char := (", \"payload\": \x7b\"transaction\": ").toList
def envClose : List Char := ("\x7d\x7d").toList

/-- Output of `json.dumps` on the payment payload. -/
def dumpsEnvelope (env : ProofEnvelope) : List Char :=
  envKeyVersion ++ Nat.toDigits 10 env.x402Version ++
    envKeyScheme ++ jsonStringLit env.scheme ++
    envKeyNetwork ++ (match env.network with
      | none => ("null").toList
      | some n => jsonStringLit n) ++
    envKeyPayload ++ jsonStringLit env.transaction ++ envClose

/-! Decoding side, modelled from the spec: "base64-decode the header, parse
the JSON envelope, base64-decode `payload.transaction`".  The parser is a
recursive descent for exactly the grammar `json.dumps` emits for this
envelope shape. -/

def stripLead : List Char → List Char → Option (List Char)
  | [], s => some s
  | _ :: _, [] => none
  | p :: ps, c :: cs => if p = c then stripLead ps cs else none

def takeDigits : List Char → List Char × List Char
  | [] => ([], [])
  | c :: rest =>
    if c.isDigit then
      let p := takeDigits rest
      (c :: p.1, p.2)
    else ([], c :: rest)

def digitsToNat (ds : List Char) : Nat :=
  ds.foldl (fun acc c => acc * 10 + (c.toNat - 48)) 0

def parseNat (s : List Char) : Option (Nat × List Char) :=
  match takeDigits s with
  | ([], _) => none
  | (ds, rest) => some (digitsToNat ds, rest)

def unescapeChar (e : Char) : Option Char :=
  if e = '"' then some '"'
  else if e = '\\' then some '\\'
  else if e = '/' then some '/'
  else if e = 'n' then some '\n'
  else if e = 't' then some '\t'
  else if e = 'r' then some '\r'
  else if e = 'b' then some (Char.ofNat 8)
  else if e = 'f' then some (Char.ofNat 12)
  else none

def hexVal (c : Char) : Nat :=
  if c.toNat ≤ 57 then c.toNat - 48
  else if c.toNat ≤ 70 then c.toNat - 55
  else c.toNat - 87

/-- Scan a JSON string body up to its closing quote, unescaping as it goes;
returns the content and the remaining input. -/
def scanString : List Char → Option (List Char × List Char)
  | [] => none
  | c :: rest =>
    if c = '"' then some ([], rest)
    else if c = '\\' then
      match rest with
      | [] => none
      | e :: rest2 =>
        if e = 'u' then
          match rest2 with
          | h1 :: h2 :: h3 :: h4 :: rest3 =>
            (scanString rest3).map fun p =>
              (Char.ofNat (hexVal h1 * 4096 + hexVal h2 * 256 + hexVal h3 * 16 + hexVal h4) :: p.1, p.2)
          | _ => none
        else
          match unescapeChar e with
          | none => none
          | some u => (scanString rest2).map fun p => (u :: p.1, p.2)
    else (scanString rest).map fun p => (c :: p.1, p.2)

/-- Parse a quoted JSON string literal. -/
def parseStringLit : List Char → Option (List Char × List Char)
  | '"' :: rest => scanString rest
  | _ => none

/-- Parse `null` or a string literal. -/
def parseNetworkField : List Char → Option (Option (List Char) × List Char)
  | 'n' :: 'u' :: 'l' :: 'l' :: rest => some (none, rest)
  | '"' :: rest => (scanString rest).map fun p => (some p.1, p.2)
  | _ => none

/-- Parse the JSON envelope back into its fields. -/
def parseEnvelope (s : List Char) : Option ProofEnvelope := do
  let s1 ← stripLead envKeyVersion s
  let (v, s2) ← parseNat s1
  let s3 ← stripLead envKeyScheme s2
  let (scheme, s4) ← parseStringLit s3
  let s5 ← stripLead envKeyNetwork s4
  let (network, s6) ← parseNetworkField s5
  let s7 ← stripLead envKeyPayload s6
  let (t, s8) ← parseStringLit s7
  if s8 = envClose then some ⟨v, scheme, network, t⟩ else none

/-! ## Solana transaction model (`_create_usdc_transfer_tx`, `_get_ata`,
`_transfer_checked_ix`)

Addresses are symbolic: a base58 string, or the associated-token address
deterministically derived from an owner and a mint
(`Pubkey.find_program_address`, a pure derivation). -/

inductive Addr
  | base (s : String)
  | derivedAta (owner mint : Addr)
deriving DecidableEq, Repr

/-- `_get_ata`: derive the associated token address for `owner` and `mint`. -/
def getAta (owner mint : Addr) : Addr := .derivedAta owner mint

structure AccountMetaM where
  pubkey : Addr
  isSigner : Bool
  isWritable : Bool
deriving DecidableEq, Repr

/-- Instructions as the builder assembles them: the two solders
compute-budget helpers, and a raw instruction built from program id, packed
data and account metas. -/
inductive InstructionM
  | setComputeUnitLimit (units : Nat)
  | setComputeUnitPrice (microLamports : Nat)
  | generic (programId : Addr) (data : List Nat) (accounts : List AccountMetaM)
deriving DecidableEq, Repr

structure MessageM where
  feePayer : Addr
  instructions : List InstructionM
  blockhash : String
deriving DecidableEq, Repr

/-- `VersionedTransaction(msg, [keypair])`: message plus the signing wallet. -/
structure SignedTx where
  message : MessageM
  signers : List String
deriving DecidableEq, Repr

def usdcMint : String := "EPjFWdd5AufqSSqeM2qN1xzybapC8G4wEGGkZwyTDt1v"
def usdcDecimals : Nat := 6
def tokenProgramId : String := "TokenkegQfeZyiNwAJbNbGKPFXCWuBvf9Ss623VQ5DA"

/-- Little-endian byte expansion (`struct.pack` integer fields). -/
def leBytes : Nat → Nat → List Nat
  | 0, _ => []
  | k + 1, n => n % 256 :: leBytes k (n / 256)

/-- `_transfer_checked_ix`: TokenProgram `TransferChecked` (discriminator 12),
data packed `<BQB` as discriminator, amount, decimals. -/
def transferCheckedIx (source mint dest owner : Addr) (amount decimals : Nat) :
    InstructionM :=
  .generic (.base tokenProgramId) (12 :: leBytes 8 amount ++ [decimals])
    [⟨source, false, true⟩, ⟨mint, false, false⟩, ⟨dest, false, true⟩, ⟨owner, true, false⟩]

/-- `_create_usdc_transfer_tx`: derive both ATAs, assemble the three
instructions in fixed order, compile the message with the designated fee
payer and the fetched blockhash, sign with the client keypair. -/
def createUsdcTransferTx (blockhash wallet : String) (amount : Nat)
    (destination feePayer : String) : SignedTx :=
  let sourceAta := getAta (.base wallet) (.base usdcMint)
  let destAta := getAta (.base destination) (.base usdcMint)
  { message :=
      { feePayer := .base feePayer
        instructions :=
          [.setComputeUnitLimit 20000, .setComputeUnitPrice 1,
            transferCheckedIx sourceAta (.base usdcMint) destAta (.base wallet) amount usdcDecimals]
        blockhash := blockhash }
    signers := [wallet] }

/-! `bytes(tx)`: the solders wire serialization.  The claims treat the signed
transaction as an opaque byte sequence, so any concrete injective encoding
represents it; we use a simple tagged, length-prefixed one. -/

def addrBytes : Addr → List Nat
  | .base s => 0 :: s.length :: s.toList.map Char.toNat
  | .derivedAta o m => 1 :: addrBytes o ++ addrBytes m

def accountMetaBytes (a : AccountMetaM) : List Nat :=
  addrBytes a.pubkey ++ [if a.isSigner then 1 else 0, if a.isWritable then 1 else 0]

def instructionBytes : InstructionM → List Nat
  | .setComputeUnitLimit u => 2 :: leBytes 4 u
  | .setComputeUnitPrice p => 3 :: leBytes 8 p
  | .generic pid data accounts =>
    9 :: addrBytes pid ++ (data.length :: data) ++
      (accounts.length :: accounts.flatMap accountMetaBytes)

def serializeTx (tx : SignedTx) : List Nat :=
  tx.signers.length :: tx.signers.flatMap (fun s => s.length :: s.toList.map Char.toNat) ++
    addrBytes tx.message.feePayer ++
    (tx.message.blockhash.length :: tx.message.blockhash.toList.map Char.toNat) ++
    tx.message.instructions.flatMap instructionBytes

/-! ## Client internals (`client.py`) -/

/-- A Python-truthiness test for an optional string field (`None` and the
empty string are falsy). -/
def truthyStr : Option String → Bool
  | none => false
  | some s => !(s == "")

/-- Challenge-field extraction and validation, lines 319-332 of
`_create_x402_payment`: first accepted option only; `scheme` defaults to
`"exact"`; the `all([amount, pay_to, asset, fee_payer])` truthiness check
(note: `network` is not checked, and a zero amount is falsy). -/
def parseRequirement (info : Challenge) : Except SdkError Requirement :=
  match info.accepts.getD [] with
  | [] => .error (.oracleSentinel "No payment options")
  | req :: _ =>
    let amount := req.maxAmountRequired.getD 0
    if amount = 0 || !truthyStr req.payTo || !truthyStr req.asset || !truthyStr req.feePayer then
      .error (.oracleSentinel "Invalid payment requirements")
    else
      .ok ⟨amount, req.payTo.getD "", req.asset.getD "", req.feePayer.getD "",
        req.network, req.scheme.getD "exact"⟩

/-- `get_usdc_balance`: returns the first token account's `uiAmount` (a
display-unit float), `0.0` when the wallet is unset, the account list is
empty, the amount is null, or ANY exception occurs during the fetch. -/
def getUsdcBalance (hasWallet : Bool) (ledger : Except Unit (List TokenAccount)) :
    PyFloat :=
  if !hasWallet then pyZero
  else
    match ledger with
    | .error _ => pyZero
    | .ok accounts =>
      match accounts with
      | [] => pyZero
      | a :: _ => a.uiAmount.getD pyZero

/-- Lines 335-336: `balance_atomic = int(balance * 1_000_000)` — float
multiply then truncation. -/
def observedBalanceAtomic (hasWallet : Bool)
    (ledger : Except Unit (List TokenAccount)) : Int :=
  pyTrunc (pyMulMillion (getUsdcBalance hasWallet ledger))

/-- Lines 343-353: build the payment payload and base64-encode the
`json.dumps` output (an ASCII string, `.encode()` maps chars to bytes). -/
def encodeProof (scheme : String) (network : Option String) (txBytes : List Nat) :
    List Char :=
  b64EncodeBytes
    ((dumpsEnvelope ⟨2, scheme.toList, network.map String.toList, b64EncodeBytes txBytes⟩).map
      Char.toNat)

/-- `_create_x402_payment`: parse and validate the challenge, check the
balance, build and sign the transfer, encode the proof header.  Returns the
result with the trace of I/O effects. -/
def createX402Payment (wallet : String) (w : WorldM) (info : Challenge) :
    Except SdkError (List Char) × List EffectM :=
  match parseRequirement info with
  | .error e => (.error e, [])
  | .ok r =>
    let balanceAtomic := observedBalanceAtomic (!(wallet == "")) w.ledger
    if balanceAtomic < (r.amount : Int) then
      (.error (.insufficientBalance r.amount balanceAtomic), [.ledgerRead])
    else
      let tx := createUsdcTransferTx w.blockhash wallet r.amount r.payTo r.feePayer
      (.ok (encodeProof r.scheme r.network (serializeTx tx)),
        [.ledgerRead, .blockhashFetch, .txBuild r.amount r.payTo r.feePayer])

/-- Line 284: `int(payment_info.get("accepts", [\x7b\x7d])[0].get("maxAmountRequired", 0))`.
An absent `accepts` key defaults to a one-empty-dict list (amount 0); a
present but empty list raises `IndexError`. -/
def paymentRequiredAmount (info : Challenge) : Except SdkError Nat :=
  match info.accepts with
  | none => .ok 0
  | some [] => .error .indexError
  | some (o :: _) => .ok (o.maxAmountRequired.getD 0)

def capabilityMsg : String :=
  "Payment required. Hold 1000+ $OSAI for free access, or provide private_key for x402 payment."

/-- Lines 308-314: the status handling every response (initial or retried)
flows through — 401, then any non-200, then success. -/
def finishStatus (resp : HttpResp) : Except SdkError HttpResp :=
  if resp.status = 401 then .error (.authentication "Authentication failed")
  else if resp.status ≠ 200 then
    .error (.oracleSentinel ("API error " ++ toString resp.status ++ ": " ++ resp.text))
  else .ok resp

/-- `_request`: issue the call; on 402 either fail (payment disallowed or
auto-pay off: `PaymentRequiredError`; identity cannot sign: base
`OracleSentinelError`), or pay and retry exactly once; then classify the
final status. -/
def requestM (autoPay canPay allowPayment : Bool) (wallet : String) (w : WorldM) :
    Except SdkError HttpResp × List EffectM :=
  match w.first with
  | .error e => (.error (.network ("Request failed: " ++ e)), [.httpSend false])
  | .ok resp =>
    if resp.status = 402 then
      if !(allowPayment && autoPay) then
        match paymentRequiredAmount resp.body with
        | .error err => (.error err, [.httpSend false])
        | .ok a => (.error (.paymentRequired a), [.httpSend false])
      else if !canPay then
        (.error (.oracleSentinel capabilityMsg), [.httpSend false])
      else
        match createX402Payment wallet w resp.body with
        | (.error err, effs) => (.error err, .httpSend false :: effs)
        | (.ok _header, effs) =>
          match w.retry with
          | .error e =>
            (.error (.network ("Payment request failed: " ++ e)),
              .httpSend false :: effs ++ [.httpSend true])
          | .ok resp2 => (finishStatus resp2, .httpSend false :: effs ++ [.httpSend true])
    else (finishStatus resp, [.httpSend false])

/-- Spec-modelled decoding pipeline for the payment-proof header:
base64-decode the header, parse the JSON envelope, base64-decode
`payload.transaction`. -/
def decodeProofTransaction (header : List Char) : Option (List Nat) := do
  let bytes ← b64DecodeBytes header
  let env ← parseEnvelope (bytes.map Char.ofNat)
  b64DecodeBytes env.transaction

/-- Count of payment-carrying (retry) HTTP sends in a trace. -/
def paymentSends (effs : List EffectM) : Nat :=
  (effs.filter fun e => match e with | .httpSend true => true | _ => false).length

/-- Count of transaction builds in a trace. -/
def txBuilds (effs : List EffectM) : Nat :=
  (effs.filter fun e => match e with | .txBuild _ _ _ => true | _ => false).length


/-! ## Concrete scenarios used in witnesses and counterexamples -/

/-- A well-formed accepted option with the given atomic amount. -/
def optStd (amt : Nat) : PaymentOption :=
  ⟨some amt, some "P", some "A", some "F", some "solana", none⟩

/-- First option lacks only the `network` field. -/
def infoNoNetwork : Challenge := ⟨some [⟨some 5, some "P", some "A", some "F", none, none⟩]⟩

def infoPay : Challenge := ⟨some [optStd 1]⟩

/-- Challenge priced at 1 atomic unit; balance 1.0 USDC; the retried request
is answered 402 again. -/
def wRetry402 : WorldM :=
  ⟨.ok ⟨402, infoPay, "pay"⟩, .ok ⟨402, ⟨none⟩, "pay again"⟩, .ok [⟨some ⟨1, 0⟩⟩], "BH"⟩

/-- Same challenge, but the retried request fails at the transport layer. -/
def wRetryFail : WorldM :=
  ⟨.ok ⟨402, infoPay, "pay"⟩, .error "boom", .ok [⟨some ⟨1, 0⟩⟩], "BH"⟩

def infoLow : Challenge := ⟨some [optStd 600000]⟩

/-- Challenge priced at 600000 atomic units; balance 0.5 USDC (float 2^-1). -/
def wLow : WorldM :=
  ⟨.ok ⟨402, infoLow, "pay"⟩, .ok ⟨200, ⟨none⟩, "ok"⟩, .ok [⟨some ⟨1, -1⟩⟩], "BH"⟩

/-- The binary64 value of the decimal `8.29`: the unique double within half an
ulp (`2^-50`) of `829/100`. -/
def d829 : PyFloat := ⟨4666855113862676, -49⟩

def infoBal829 : Challenge := ⟨some [optStd 8290000]⟩

/-- Challenge priced at 8290000 atomic units; the RPC displays the wallet's
8290000-atomic-unit balance as `8.29`. -/
def wBal829 : WorldM :=
  ⟨.ok ⟨402, infoBal829, "pay"⟩, .ok ⟨200, ⟨none⟩, "ok"⟩, .ok [⟨some d829⟩], "BH"⟩

/-- A 402 world for the capability branch (identity cannot sign). -/
def wCap : WorldM :=
  ⟨.ok ⟨402, infoPay, "pay"⟩, .ok ⟨200, ⟨none⟩, "ok"⟩, .ok [], "BH"⟩

def infoSplit : Challenge := ⟨some [optStd 3000000]⟩

/-- Holdings split across two token accounts: 2.0 and 6.0 USDC. -/
def wSplit : WorldM :=
  ⟨.ok ⟨402, infoSplit, "x"⟩, .ok ⟨200, ⟨none⟩, "ok"⟩, .ok [⟨some ⟨2, 0⟩⟩, ⟨some ⟨6, 0⟩⟩], "BH"⟩

/-- A 402 response whose body has no `accepts` key at all. -/
def wNoAccepts : WorldM :=
  ⟨.ok ⟨402, ⟨none⟩, "x"⟩, .ok ⟨200, ⟨none⟩, "ok"⟩, .ok [], "BH"⟩

def optNoAmount : PaymentOption := ⟨none, some "P", some "A", some "F", some "solana", none⟩

/-- A 402 response whose first option lacks `maxAmountRequired`. -/
def wNoAmount : WorldM :=
  ⟨.ok ⟨402, ⟨some [optNoAmount]⟩, "x"⟩, .ok ⟨200, ⟨none⟩, "ok"⟩, .ok [], "BH"⟩

/-- A call whose very first request fails at the transport layer. -/
def wFirstFail : WorldM := ⟨.error "down", .ok ⟨200, ⟨none⟩, "ok"⟩, .ok [], "BH"⟩

/-- Characters within byte range (ASCII json text encodes one byte each). -/
def byteChar (c : Char) : Bool := c.toNat < 256

/-! ## Base64 lemmas -/

theorem b64Index_b64Char : ∀ n, n < 64 → b64Index (b64Char n) = some n := by decide

theorem b64Char_plain : ∀ n, n < 64 → plainChar (b64Char n) = true := by decide

theorem b64Char_ne_pad : ∀ n, n < 64 → b64Char n ≠ '=' := by decide

theorem pad_plain : plainChar '=' = true := by decide

theorem b64Char_plain_all (n : Nat) : plainChar (b64Char n) = true := by
  rcases Nat.lt_or_ge n 64 with h | h
  · exact b64Char_plain n h
  · have hd : b64Char n = 'A' := by
      unfold b64Char
      exact List.getD_eq_default _ _ (le_trans (by decide) h)
    rw [hd]; decide

theorem b64Char_ne_pad_all (n : Nat) : b64Char n ≠ '=' := by
  rcases Nat.lt_or_ge n 64 with h | h
  · exact b64Char_ne_pad n h
  · have hd : b64Char n = 'A' := by
      unfold b64Char
      exact List.getD_eq_default _ _ (le_trans (by decide) h)
    rw [hd]; decide

theorem b64EncodeBytes_all_plain : ∀ bs : List Nat, (b64EncodeBytes bs).all plainChar = true
  | [] => rfl
  | [_] => by
    simp [b64EncodeBytes, List.all_cons, b64Char_plain_all, pad_plain]
  | [_, _] => by
    simp [b64EncodeBytes, List.all_cons, b64Char_plain_all, pad_plain]
  | _ :: _ :: _ :: rest => by
    have ih := b64EncodeBytes_all_plain rest
    simp [b64EncodeBytes, List.all_cons, b64Char_plain_all, ih]

theorem b64DecodeBytes_encode : ∀ bs : List Nat, (∀ b ∈ bs, b < 256) →
    b64DecodeBytes (b64EncodeBytes bs) = some bs
  | [], _ => rfl
  | [b1], h => by
    have hb : b1 < 256 := h b1 (by simp)
    have h1 : b1 / 4 < 64 := by omega
    have h2 : b1 % 4 * 16 < 64 := by omega
    simp only [b64EncodeBytes, b64DecodeBytes, b64Index_b64Char _ h1, b64Index_b64Char _ h2]
    simp only [if_pos rfl, and_self, reduceIte, if_true, and_true, reduceCtorEq]
    simp only [Option.some.injEq, List.cons.injEq, and_true]
    omega
  | [b1, b2], h => by
    have hb1 : b1 < 256 := h b1 (by simp)
    have hb2 : b2 < 256 := h b2 (by simp)
    have h1 : b1 / 4 < 64 := by omega
    have h2 : b1 % 4 * 16 + b2 / 16 < 64 := by omega
    have h3 : b2 % 16 * 4 < 64 := by omega
    have hne3 := b64Char_ne_pad _ h3
    simp only [b64EncodeBytes, b64DecodeBytes, b64Index_b64Char _ h1, b64Index_b64Char _ h2,
      b64Index_b64Char _ h3]
    simp only [hne3, if_false, if_pos rfl, reduceIte]
    simp only [Option.some.injEq, List.cons.injEq, and_true]
    omega
  | b1 :: b2 :: b3 :: rest, h => by
    have hb1 : b1 < 256 := h b1 (by simp)
    have hb2 : b2 < 256 := h b2 (by simp)
    have hb3 : b3 < 256 := h b3 (by simp)
    have h1 : b1 / 4 < 64 := by omega
    have h2 : b1 % 4 * 16 + b2 / 16 < 64 := by omega
    have h3 : b2 % 16 * 4 + b3 / 64 < 64 := by omega
    have h4 : b3 % 64 < 64 := by omega
    have hne3 := b64Char_ne_pad _ h3
    have hne4 := b64Char_ne_pad _ h4
    have ih := b64DecodeBytes_encode rest (fun b hb => h b (by simp [hb]))
    simp only [b64EncodeBytes, b64DecodeBytes, b64Index_b64Char _ h1, b64Index_b64Char _ h2,
      b64Index_b64Char _ h3, b64Index_b64Char _ h4, hne3, hne4, if_false, ih, reduceIte]
    simp only [Option.some.injEq, List.cons.injEq]
    refine ⟨by omega, by omega, by omega, trivial⟩

/-! ## JSON envelope lemmas -/

theorem plainChar_spec (c : Char) (h : plainChar c = true) :
    32 ≤ c.toNat ∧ c.toNat ≤ 126 ∧ c ≠ '"' ∧ c ≠ '\\' := by
  simp only [plainChar, Bool.and_eq_true, decide_eq_true_eq, Bool.not_eq_true',
    beq_eq_false_iff_ne, ne_eq] at h
  exact ⟨h.1.1.1, h.1.1.2, h.1.2, h.2⟩

theorem jsonEscapeChar_plain (c : Char) (h : plainChar c = true) : jsonEscapeChar c = [c] := by
  obtain ⟨h1, h2, h3, h4⟩ := plainChar_spec c h
  have e1 : c ≠ '\n' := by intro hq; rw [hq] at h1; exact absurd h1 (by decide)
  have e2 : c ≠ '\t' := by intro hq; rw [hq] at h1; exact absurd h1 (by decide)
  have e3 : c ≠ '\r' := by intro hq; rw [hq] at h1; exact absurd h1 (by decide)
  have e4 : ¬(c.toNat = 8) := by omega
  have e5 : ¬(c.toNat = 12) := by omega
  have e6 : ¬(c.toNat < 32 ∨ 126 < c.toNat) := by omega
  simp [jsonEscapeChar, h3, h4, e1, e2, e3, e4, e5, e6]

theorem flatMap_escape_plain (s : List Char) (h : s.all plainChar = true) :
    s.flatMap jsonEscapeChar = s := by
  induction s with
  | nil => rfl
  | cons c cs ih =>
    simp only [List.all_cons, Bool.and_eq_true] at h
    simp [jsonEscapeChar_plain c h.1, ih h.2]

theorem scanString_plain : ∀ content : List Char, content.all plainChar = true →
    ∀ rest : List Char, scanString (content ++ '"' :: rest) = some (content, rest)
  | [], _, rest => by rw [List.nil_append, scanString.eq_def]; simp
  | c :: cs, h, rest => by
    have h' : plainChar c = true ∧ cs.all plainChar = true := by
      simpa [List.all_cons, Bool.and_eq_true] using h
    obtain ⟨-, -, h3, h4⟩ := plainChar_spec c h'.1
    have ih := scanString_plain cs h'.2 rest
    rw [List.cons_append, scanString.eq_def]
    simp [h3, h4, ih]

theorem stripLead_append : ∀ p s : List Char, stripLead p (p ++ s) = some s
  | [], _ => rfl
  | c :: cs, s => by simp [stripLead, stripLead_append cs s]

theorem takeDigits_cons_false (c : Char) (r : List Char) (h : c.isDigit = false) :
    takeDigits (c :: r) = ([], c :: r) := by
  rw [takeDigits.eq_def]; simp [h]

theorem takeDigits_cons_true (c : Char) (r : List Char) (h : c.isDigit = true) :
    takeDigits (c :: r) = (c :: (takeDigits r).1, (takeDigits r).2) := by
  rw [takeDigits.eq_def]; simp [h]

theorem envKeyScheme_eq : envKeyScheme = ',' :: (" \"scheme\": ").toList := by decide

theorem takeDigits_envKeyScheme (X : List Char) :
    takeDigits (envKeyScheme ++ X) = ([], envKeyScheme ++ X) := by
  rw [envKeyScheme_eq, List.cons_append, takeDigits_cons_false _ _ (by decide)]

theorem parseNat_two (X : List Char) :
    parseNat ('2' :: (envKeyScheme ++ X)) = some (2, envKeyScheme ++ X) := by
  rw [parseNat.eq_def, takeDigits_cons_true _ _ (by decide), takeDigits_envKeyScheme]
  norm_num [digitsToNat]
  decide

theorem parseStringLit_plain (content : List Char) (h : content.all plainChar = true)
    (rest : List Char) :
    parseStringLit ('"' :: (content ++ '"' :: rest)) = some (content, rest) := by
  rw [parseStringLit.eq_def]
  simp [scanString_plain content h rest]

theorem parseNetworkField_null (rest : List Char) :
    parseNetworkField ('n' :: 'u' :: 'l' :: 'l' :: rest) = some (none, rest) := by
  rw [parseNetworkField.eq_def]
  simp

theorem parseNetworkField_quote (content : List Char) (h : content.all plainChar = true)
    (rest : List Char) :
    parseNetworkField ('"' :: (content ++ '"' :: rest)) = some (some content, rest) := by
  rw [parseNetworkField.eq_def]
  simp [scanString_plain content h rest]

theorem nullChars : ("null").toList = 'n' :: 'u' :: 'l' :: 'l' :: [] := by decide

theorem parseEnvelope_dumps (scheme t : List Char) (network : Option (List Char))
    (hs : scheme.all plainChar = true)
    (hn : ∀ n, network = some n → n.all plainChar = true)
    (ht : t.all plainChar = true) :
    parseEnvelope (dumpsEnvelope ⟨2, scheme, network, t⟩) = some ⟨2, scheme, network, t⟩ := by
  have hdig : Nat.toDigits 10 2 = ['2'] := rfl
  have hsl : jsonStringLit scheme = '"' :: (scheme ++ ['"']) := by
    simp [jsonStringLit, flatMap_escape_plain scheme hs]
  have htl : jsonStringLit t = '"' :: (t ++ ['"']) := by
    simp [jsonStringLit, flatMap_escape_plain t ht]
  rcases network with _ | n
  · simp only [dumpsEnvelope, hdig, hsl, htl, nullChars, parseEnvelope,
      List.append_assoc, List.cons_append, List.singleton_append, List.nil_append]
    simp only [Option.bind_eq_bind, Option.some_bind, stripLead_append, parseNat_two,
      parseStringLit_plain scheme hs, parseStringLit_plain t ht, parseNetworkField_null,
      if_pos rfl]
    simp
  · have hnp : n.all plainChar = true := hn n rfl
    have hnl : jsonStringLit n = '"' :: (n ++ ['"']) := by
      simp [jsonStringLit, flatMap_escape_plain n hnp]
    simp only [dumpsEnvelope, hdig, hsl, htl, hnl, parseEnvelope,
      List.append_assoc, List.cons_append, List.singleton_append, List.nil_append]
    simp only [Option.bind_eq_bind, Option.some_bind, stripLead_append, parseNat_two,
      parseStringLit_plain scheme hs, parseStringLit_plain t ht,
      parseNetworkField_quote n hnp, if_pos rfl]
    simp

/-! ## Proof-header roundtrip (claim C3 support) -/

theorem byte_of_plain (c : Char) (h : plainChar c = true) : byteChar c = true := by
  obtain ⟨-, h2, -, -⟩ := plainChar_spec c h
  simp only [byteChar, decide_eq_true_eq]
  omega

theorem all_byte_of_plain (l : List Char) (h : l.all plainChar = true) :
    l.all byteChar = true := by
  rw [List.all_eq_true] at h ⊢
  exact fun c hc => byte_of_plain c (h c hc)

theorem all_byte_dumps (scheme t : List Char) (network : Option (List Char))
    (hs : scheme.all plainChar = true)
    (hn : ∀ n, network = some n → n.all plainChar = true)
    (ht : t.all plainChar = true) :
    (dumpsEnvelope ⟨2, scheme, network, t⟩).all byteChar = true := by
  have hdig : Nat.toDigits 10 2 = ['2'] := rfl
  have h1 := all_byte_of_plain _ hs
  have h2 := all_byte_of_plain _ ht
  have hk1 : envKeyVersion.all byteChar = true := by decide
  have hk2 : envKeyScheme.all byteChar = true := by decide
  have hk3 : envKeyNetwork.all byteChar = true := by decide
  have hk4 : envKeyPayload.all byteChar = true := by decide
  have hk5 : envClose.all byteChar = true := by decide
  have hq : byteChar '"' = true := by decide
  rcases network with _ | n
  · simp [dumpsEnvelope, hdig, jsonStringLit, List.all_append, List.all_cons,
      flatMap_escape_plain scheme hs, flatMap_escape_plain t ht,
      h1, h2, hk1, hk2, hk3, hk4, hk5, hq]
    decide
  · have hnp := hn n rfl
    simp [dumpsEnvelope, hdig, jsonStringLit, List.all_append, List.all_cons,
      flatMap_escape_plain scheme hs, flatMap_escape_plain t ht,
      flatMap_escape_plain n hnp, h1, h2, all_byte_of_plain n hnp,
      hk1, hk2, hk3, hk4, hk5, hq]
    decide

theorem bytes_lt_of_all_byte (l : List Char) (h : l.all byteChar = true) :
    ∀ b ∈ l.map Char.toNat, b < 256 := by
  intro b hb
  rw [List.mem_map] at hb
  obtain ⟨c, hc, rfl⟩ := hb
  have hx := List.all_eq_true.mp h c hc
  simpa [byteChar] using hx

theorem map_ofNat_toNat (l : List Char) : (l.map Char.toNat).map Char.ofNat = l := by
  rw [List.map_map]
  exact (List.map_congr_left fun c _ => Char.ofNat_toNat c).trans (List.map_id l)

/-! ## Trace and orchestrator helper lemmas -/

theorem paymentSends_cons_send_false (l : List EffectM) :
    paymentSends (.httpSend false :: l) = paymentSends l := by
  simp [paymentSends]

theorem paymentSends_append (l1 l2 : List EffectM) :
    paymentSends (l1 ++ l2) = paymentSends l1 + paymentSends l2 := by
  simp [paymentSends, List.filter_append]

theorem txBuilds_cons_send (b : Bool) (l : List EffectM) :
    txBuilds (.httpSend b :: l) = txBuilds l := by
  simp [txBuilds]

theorem txBuilds_append (l1 l2 : List EffectM) :
    txBuilds (l1 ++ l2) = txBuilds l1 + txBuilds l2 := by
  simp [txBuilds, List.filter_append]

theorem paymentSends_nil : paymentSends [] = 0 := rfl

theorem txBuilds_nil : txBuilds [] = 0 := rfl

theorem paymentSends_single_true : paymentSends [.httpSend true] = 1 := rfl

theorem txBuilds_single_send (b : Bool) : txBuilds [.httpSend b] = 0 := by
  cases b <;> rfl

theorem createX402Payment_trace (wallet : String) (w : WorldM) (info : Challenge) :
    paymentSends (createX402Payment wallet w info).2 = 0 ∧
    txBuilds (createX402Payment wallet w info).2 ≤ 1 := by
  unfold createX402Payment
  cases hp : parseRequirement info with
  | error e => simp [paymentSends, txBuilds]
  | ok r =>
    by_cases hb : observedBalanceAtomic (!(wallet == "")) w.ledger < (r.amount : Int)
    · simp [hb, paymentSends, txBuilds]
    · simp [hb, paymentSends, txBuilds]

theorem requestM_402_pay (wallet : String) (w : WorldM) (resp : HttpResp)
    (hfirst : w.first = .ok resp) (hstatus : resp.status = 402) :
    requestM true true true wallet w =
      (match createX402Payment wallet w resp.body with
        | (.error err, effs) => (.error err, .httpSend false :: effs)
        | (.ok _, effs) =>
          match w.retry with
          | .error e =>
            (.error (.network ("Payment request failed: " ++ e)),
              .httpSend false :: effs ++ [.httpSend true])
          | .ok resp2 => (finishStatus resp2, .httpSend false :: effs ++ [.httpSend true])) := by
  unfold requestM
  rw [hfirst]
  simp [hstatus]

theorem createX402_insufficient (wallet : String) (w : WorldM) (info : Challenge)
    (r : Requirement) (hreq : parseRequirement info = .ok r)
    (hbal : observedBalanceAtomic (!(wallet == "")) w.ledger < (r.amount : Int)) :
    createX402Payment wallet w info =
      (.error (.insufficientBalance r.amount (observedBalanceAtomic (!(wallet == "")) w.ledger)),
        [.ledgerRead]) := by
  unfold createX402Payment
  rw [hreq]
  simp [hbal]

/-! ## Claim theorems -/

/-- C3: for every signed-transaction byte sequence `tx` and every parsed
requirement, encoding the payment-proof header and then decoding it
(base64-decode the header, parse the JSON envelope, base64-decode
`payload.transaction`) yields exactly the original bytes `tx`.  Stated for
scheme/network strings of printable ASCII without quote or backslash (JSON
escaping is then the identity); the transaction field is base64 text and
needs no restriction. -/
theorem c3_proof_header_roundtrip (tx : List Nat) (r : Requirement)
    (htx : ∀ b ∈ tx, b < 256)
    (hs : r.scheme.toList.all plainChar = true)
    (hn : ∀ s, r.network = some s → s.toList.all plainChar = true) :
    decodeProofTransaction (encodeProof r.scheme r.network tx) = some tx := by
  have htplain := b64EncodeBytes_all_plain tx
  have hn' : ∀ n, r.network.map String.toList = some n → n.all plainChar = true := by
    intro n hmap
    cases hmem : r.network with
    | none => rw [hmem] at hmap; simp at hmap
    | some s =>
      rw [hmem] at hmap
      simp only [Option.map_some', Option.some.injEq] at hmap
      exact hmap ▸ hn s hmem
  have hd := all_byte_dumps r.scheme.toList (b64EncodeBytes tx)
    (r.network.map String.toList) hs hn' htplain
  unfold decodeProofTransaction encodeProof
  rw [b64DecodeBytes_encode _ (bytes_lt_of_all_byte _ hd)]
  simp only [Option.bind_eq_bind, Option.some_bind]
  rw [map_ofNat_toNat, parseEnvelope_dumps _ _ _ hs hn' htplain]
  simp only [Option.some_bind]
  exact b64DecodeBytes_encode tx htx

theorem c3_witness :
    ((∀ b ∈ [77, 0, 255, 10], b < 256) ∧ ("exact").toList.all plainChar = true ∧
      ("solana").toList.all plainChar = true) ∧
    decodeProofTransaction (encodeProof "exact" (some "solana") [77, 0, 255, 10]) =
      some [77, 0, 255, 10] :=
  ⟨⟨by decide, by decide, by decide⟩,
    c3_proof_header_roundtrip [77, 0, 255, 10] ⟨1, "P", "A", "F", some "solana", "exact"⟩
      (by decide) (by decide) (by intro s hs; cases hs; decide)⟩

/-- C4: every transfer transaction the builder produces sets the fee payer to
the requirement's designated `feePayer` address (an arbitrary address, not
the signing wallet), and contains exactly three instructions in fixed order:
compute-budget-limit (20000), compute-budget-price (1), then the
transfer-checked instruction whose packed data carries the required amount
and the asset's 6 decimals. -/
theorem c4_transfer_tx_shape (blockhash wallet : String) (amount : Nat)
    (dest feePayer : String) :
    (createUsdcTransferTx blockhash wallet amount dest feePayer).message.feePayer =
      .base feePayer ∧
    (createUsdcTransferTx blockhash wallet amount dest feePayer).message.instructions =
      [.setComputeUnitLimit 20000, .setComputeUnitPrice 1,
        .generic (.base tokenProgramId) (12 :: leBytes 8 amount ++ [6])
          [⟨getAta (.base wallet) (.base usdcMint), false, true⟩,
            ⟨.base usdcMint, false, false⟩,
            ⟨getAta (.base dest) (.base usdcMint), false, true⟩,
            ⟨.base wallet, true, false⟩]] ∧
    (createUsdcTransferTx blockhash wallet amount dest feePayer).message.instructions.length = 3 :=
  ⟨rfl, rfl, rfl⟩

/-- C5 counterexample: a challenge whose first option carries amount, payTo,
asset and feePayer but no `network` field is still acted on — the validation
accepts it (the code checks only four fields), contradicting the claim that a
requirement is acted on only when all five fields are present. -/
theorem c5_counterexample :
    ((infoNoNetwork.accepts.getD []).headD default).network = none ∧
    parseRequirement infoNoNetwork = .ok ⟨5, "P", "A", "F", none, "exact"⟩ :=
  ⟨rfl, rfl⟩

/-- C5 amended: validation fails exactly when the accepted-options list
(defaulted to empty when the key is absent) is empty, or the first option's
amount is missing or zero, or any of payTo / asset / feePayer is missing or
empty (Python truthiness); `network` and `scheme` are never validated. -/
theorem c5_amended_validation (info : Challenge) :
    (parseRequirement info).isOk = false ↔
      (match info.accepts.getD [] with
        | [] => True
        | o :: _ =>
          o.maxAmountRequired.getD 0 = 0 ∨ truthyStr o.payTo = false ∨
            truthyStr o.asset = false ∨ truthyStr o.feePayer = false) := by
  unfold parseRequirement
  cases hacc : info.accepts.getD [] with
  | nil => simp [Except.isOk, Except.toBool]
  | cons o rest =>
    by_cases h1 : o.maxAmountRequired.getD 0 = 0
    · simp [h1, Except.isOk, Except.toBool]
    · by_cases h2 : truthyStr o.payTo
      · by_cases h3 : truthyStr o.asset
        · by_cases h4 : truthyStr o.feePayer
          · simp [h1, h2, h3, h4, Except.isOk, Except.toBool]
          · simp [h1, h2, h3, h4, Except.isOk, Except.toBool]
        · simp [h1, h2, h3, Except.isOk, Except.toBool]
      · simp [h1, h2, Except.isOk, Except.toBool]

/-- C6 counterexample: the balance gate is computed from the float display
value, not the atomic integer.  With a wallet holding exactly 8290000 atomic
units, displayed as `8.29` (more precisely: `d829`, the unique binary64
within half an ulp of `829/100`), `int(balance * 1_000_000)` evaluates to
8289999, and a challenge for exactly 8290000 is rejected with
`InsufficientBalanceError(8290000, 8289999)` although the balance meets the
requirement — so floating-point arithmetic does occur and the display value
does feed a protocol decision. -/
theorem c6_counterexample :
    |d829.toRat - 829 / 100| < 1 / 2 ^ 50 ∧
    (829 / 100 : ℚ) * 1000000 = 8290000 ∧
    d829.toRat * 1000000 < 8290000 ∧
    (createX402Payment "W" wBal829 infoBal829).1 =
      .error (.insufficientBalance 8290000 8289999) := by
  refine ⟨?_, by norm_num, ?_, by decide⟩
  · rw [abs_sub_lt_iff]
    norm_num [PyFloat.toRat, d829]
  · norm_num [PyFloat.toRat, d829]

/-- C6 amended: the challenge amount and the transfer amount are atomic
integers end to end — the transfer instruction's packed data is exactly the
discriminator 12, the eight little-endian bytes of the required atomic
amount, and the 6 decimals; the balance gate, however, is computed from the
RPC's float display value by `int(balance * 1_000_000)` (float multiply,
then truncation), which can understate the true atomic balance — `8.29`
becomes 8289999. -/
theorem c6_amended_numeric :
    (∀ (source mint dest owner : Addr) (amount : Nat),
        transferCheckedIx source mint dest owner amount usdcDecimals =
          .generic (.base tokenProgramId) (12 :: leBytes 8 amount ++ [6])
            [⟨source, false, true⟩, ⟨mint, false, false⟩, ⟨dest, false, true⟩,
              ⟨owner, true, false⟩]) ∧
    (∀ (hw : Bool) (ledger : Except Unit (List TokenAccount)),
        observedBalanceAtomic hw ledger =
          pyTrunc (pyMulMillion (getUsdcBalance hw ledger))) ∧
    pyTrunc (pyMulMillion d829) = 8289999 ∧
    d829.toRat * 1000000 < 8290000 := by
  refine ⟨fun _ _ _ _ _ => rfl, fun _ _ => rfl, by decide, ?_⟩
  norm_num [PyFloat.toRat, d829]

/-- C1: whenever the client handles a payment challenge (402 first response,
payment allowed, auto-pay on, identity can sign) whose required atomic amount
is `r.amount` and whose observed balance in atomic units is below it, the
call fails with `InsufficientBalanceError` carrying exactly the required and
available amounts, and the effect trace shows no transaction build, no
blockhash fetch and no retried (payment-carrying) request. -/
theorem c1_insufficient_balance_rejects (wallet : String) (w : WorldM) (resp : HttpResp)
    (r : Requirement)
    (hfirst : w.first = .ok resp) (hstatus : resp.status = 402)
    (hreq : parseRequirement resp.body = .ok r)
    (hbal : observedBalanceAtomic (!(wallet == "")) w.ledger < (r.amount : Int)) :
    requestM true true true wallet w =
      (.error (.insufficientBalance r.amount
          (observedBalanceAtomic (!(wallet == "")) w.ledger)),
        [.httpSend false, .ledgerRead]) := by
  rw [requestM_402_pay wallet w resp hfirst hstatus,
    createX402_insufficient wallet w resp.body r hreq hbal]

theorem c1_witness :
    (wLow.first = .ok ⟨402, infoLow, "pay"⟩ ∧
      parseRequirement infoLow = .ok ⟨600000, "P", "A", "F", some "solana", "exact"⟩ ∧
      observedBalanceAtomic (!(("W" : String) == "")) wLow.ledger < ((600000 : Nat) : Int)) ∧
    requestM true true true "W" wLow =
      (.error (.insufficientBalance 600000 500000), [.httpSend false, .ledgerRead]) :=
  ⟨⟨rfl, by decide, by decide⟩,
    c1_insufficient_balance_rejects "W" wLow ⟨402, infoLow, "pay"⟩
      ⟨600000, "P", "A", "F", some "solana", "exact"⟩ rfl rfl (by decide) (by decide)⟩

/-- C2: at most one payment attempt is ever made per logical call — every
trace carries at most one payment-carrying send and at most one transaction
build; and when the single retry is answered 402 again, no second payment is
attempted: the call surfaces the generic `OracleSentinelError` API error. -/
theorem c2_single_payment_attempt :
    (∀ (aP cP alP : Bool) (wallet : String) (w : WorldM),
        paymentSends (requestM aP cP alP wallet w).2 ≤ 1 ∧
        txBuilds (requestM aP cP alP wallet w).2 ≤ 1) ∧
    (∀ (wallet : String) (w : WorldM) (resp resp2 : HttpResp),
        w.first = .ok resp → resp.status = 402 →
        (createX402Payment wallet w resp.body).1.isOk = true →
        w.retry = .ok resp2 → resp2.status = 402 →
        (requestM true true true wallet w).1 =
          .error (.oracleSentinel ("API error " ++ toString resp2.status ++ ": " ++ resp2.text))) := by
  constructor
  · intro aP cP alP wallet w
    unfold requestM
    rcases w.first with e | resp
    · simp [paymentSends, txBuilds]
    · by_cases h402 : resp.status = 402
      · cases hpol : (alP && aP) with
        | false =>
          rcases hpa : paymentRequiredAmount resp.body with err | a <;>
            simp [h402, hpol, hpa, paymentSends, txBuilds]
        | true =>
          cases cP with
          | false => simp [h402, hpol, paymentSends, txBuilds]
          | true =>
            have ht := createX402Payment_trace wallet w resp.body
            rcases hx : createX402Payment wallet w resp.body with ⟨res, effs⟩
            rw [hx] at ht
            have ht1 : paymentSends effs = 0 := ht.1
            have ht2 : txBuilds effs ≤ 1 := ht.2
            rcases res with err | header
            · simp [h402, hpol, hx, paymentSends_cons_send_false, txBuilds_cons_send,
                ht1, ht2]
            · rcases hr : w.retry with e2 | resp2 <;>
                simp [hx, hr, h402, hpol, paymentSends_cons_send_false, txBuilds_cons_send,
                  paymentSends_append, txBuilds_append, paymentSends_single_true,
                  txBuilds_single_send, paymentSends_nil, txBuilds_nil, ht1] <;>
                omega
      · simp [h402, paymentSends, txBuilds]
  · intro wallet w resp resp2 hfirst hstatus hok hretry hs2
    rw [requestM_402_pay wallet w resp hfirst hstatus]
    rcases hx : createX402Payment wallet w resp.body with ⟨res, effs⟩
    rw [hx] at hok
    rcases res with err | header
    · simp [Except.isOk, Except.toBool] at hok
    · rw [hretry]
      show (finishStatus resp2) = _
      unfold finishStatus
      rw [hs2]
      simp

theorem c2_witness :
    (wRetry402.first = .ok ⟨402, infoPay, "pay"⟩ ∧
      (createX402Payment "W" wRetry402 infoPay).1.isOk = true ∧
      wRetry402.retry = .ok ⟨402, ⟨none⟩, "pay again"⟩) ∧
    (requestM true true true "W" wRetry402).1 =
      .error (.oracleSentinel "API error 402: pay again") ∧
    paymentSends (requestM true true true "W" wRetry402).2 ≤ 1 :=
  ⟨⟨rfl, by decide, rfl⟩,
    c2_single_payment_attempt.2 "W" wRetry402 ⟨402, infoPay, "pay"⟩ ⟨402, ⟨none⟩, "pay again"⟩
      rfl rfl (by decide) rfl rfl,
    (c2_single_payment_attempt.1 true true true "W" wRetry402).1⟩

/-- C7 counterexample: when a 402 arrives, auto-payment is allowed and the
identity cannot sign, the client raises the BASE `OracleSentinelError` (there
is no distinct `PaymentCapabilityError` class), and that class also catches
`PaymentRequiredError` — so the two are not independently catchable, refuting
the claimed "neither is the other" separation. -/
theorem c7_counterexample :
    (requestM true false true "W" wCap).1 = .error (.oracleSentinel capabilityMsg) ∧
    (SdkError.oracleSentinel capabilityMsg).cls = .oracleSentinelCls ∧
    catches .oracleSentinelCls .paymentRequiredCls = true :=
  ⟨by decide, rfl, by decide⟩

/-- C7 amended: if a payment challenge is received, auto-payment is allowed
and the identity cannot sign, the call is rejected with the generic base
`OracleSentinelError` carrying the capability message; this error is not a
`PaymentRequiredError` and a `PaymentRequiredError` handler does not catch
it, but it is not independently catchable in the other direction: handlers
for its class (the base class) catch `PaymentRequiredError` too. -/
theorem c7_amended_capability (aP : Bool) (wallet : String) (w : WorldM) (resp : HttpResp)
    (hfirst : w.first = .ok resp) (hstatus : resp.status = 402) (hap : aP = true) :
    requestM aP false true wallet w =
      (.error (.oracleSentinel capabilityMsg), [.httpSend false]) ∧
    (SdkError.oracleSentinel capabilityMsg).cls ≠ .paymentRequiredCls ∧
    catches .paymentRequiredCls (SdkError.oracleSentinel capabilityMsg).cls = false := by
  subst hap
  refine ⟨?_, by decide, by decide⟩
  unfold requestM
  rw [hfirst]
  simp [hstatus]

theorem c7_witness :
    (wCap.first = .ok ⟨402, infoPay, "pay"⟩) ∧
    requestM true false true "W" wCap =
      (.error (.oracleSentinel capabilityMsg), [.httpSend false]) ∧
    catches .paymentRequiredCls (SdkError.oracleSentinel capabilityMsg).cls = false :=
  ⟨rfl, (c7_amended_capability true "W" wCap ⟨402, infoPay, "pay"⟩ rfl rfl rfl).1,
    (c7_amended_capability true "W" wCap ⟨402, infoPay, "pay"⟩ rfl rfl rfl).2.2⟩

/-- C8: during the balance probe, every ledger-read failure is treated as a
zero balance — the probe returns `0.0` and a run with a failing ledger is
indistinguishable from a run with an empty account list — and it never
surfaces as `NetworkError`; whereas the other I/O points propagate their
failures: a transport failure on the initial request or on the payment retry
raises `NetworkError`. -/
theorem c8_balance_probe_swallows :
    (∀ hw : Bool, getUsdcBalance hw (.error ()) = pyZero) ∧
    (∀ (wallet : String) (w : WorldM) (info : Challenge),
        createX402Payment wallet { w with ledger := .error () } info =
          createX402Payment wallet { w with ledger := .ok [] } info) ∧
    (∀ (aP cP alP : Bool) (wallet : String) (w : WorldM) (e : String),
        w.first = .error e →
        (requestM aP cP alP wallet w).1 = .error (.network ("Request failed: " ++ e))) ∧
    (∀ (wallet : String) (w : WorldM) (resp : HttpResp) (e : String),
        w.first = .ok resp → resp.status = 402 →
        (createX402Payment wallet w resp.body).1.isOk = true → w.retry = .error e →
        (requestM true true true wallet w).1 =
          .error (.network ("Payment request failed: " ++ e))) := by
  refine ⟨?_, ?_, ?_, ?_⟩
  · intro hw; cases hw <;> rfl
  · intro wallet w info
    unfold createX402Payment observedBalanceAtomic
    cases hx : (wallet == "") <;> simp only [hx] <;> rfl
  · intro aP cP alP wallet w e hf
    unfold requestM
    rw [hf]
  · intro wallet w resp e hf hs hok hr
    rw [requestM_402_pay wallet w resp hf hs]
    rcases hx : createX402Payment wallet w resp.body with ⟨res, effs⟩
    rw [hx] at hok
    rcases res with err | header
    · simp [Except.isOk, Except.toBool] at hok
    · rw [hr]

theorem c8_witness :
    getUsdcBalance true (.error ()) = pyZero ∧
    (requestM true true true "W" wFirstFail).1 = .error (.network ("Request failed: " ++ "down")) ∧
    (createX402Payment "W" wRetryFail infoPay).1.isOk = true ∧
    (requestM true true true "W" wRetryFail).1 =
      .error (.network ("Payment request failed: " ++ "boom")) :=
  ⟨c8_balance_probe_swallows.1 true,
    c8_balance_probe_swallows.2.2.1 true true true "W" wFirstFail "down" rfl,
    by decide,
    c8_balance_probe_swallows.2.2.2 "W" wRetryFail ⟨402, infoPay, "pay"⟩ "boom" rfl rfl
      (by decide) rfl⟩

/-- C9: the balance probe reads only the first token account of the RPC
response — the returned balance for `a :: rest` never depends on `rest` —
so with holdings split 2.0 + 6.0 USDC across two accounts (8000000 atomic in
total, enough for a 3000000 requirement), the payment is still refused with
`InsufficientBalanceError(3000000, 2000000)`. -/
theorem c9_balance_first_account_only :
    (∀ (hw : Bool) (a : TokenAccount) (rest : List TokenAccount),
        getUsdcBalance hw (.ok (a :: rest)) = getUsdcBalance hw (.ok [a])) ∧
    ((⟨2, 0⟩ : PyFloat).toRat + (⟨6, 0⟩ : PyFloat).toRat) * 1000000 = 8000000 ∧
    (3000000 : ℚ) ≤ 8000000 ∧
    (requestM true true true "W" wSplit).1 = .error (.insufficientBalance 3000000 2000000) := by
  refine ⟨?_, ?_, by norm_num, by decide⟩
  · intro hw a rest
    cases hw <;> rfl
  · norm_num [PyFloat.toRat]

/-- C10: on a 402 received while payment is disallowed (auto-pay off, or the
call forbids payment as `get_info` does), a body with no `accepts` key, or a
first option lacking `maxAmountRequired`, still raises
`PaymentRequiredError` with amount 0 (whose display field `amount_dollars`
is 0.0) — not a malformed-challenge failure. -/
theorem c10_disallowed_zero_amount (aP cP alP : Bool) (wallet : String) (w : WorldM)
    (resp : HttpResp) (hfirst : w.first = .ok resp) (hstatus : resp.status = 402)
    (hno : (alP && aP) = false) :
    (resp.body.accepts = none →
      (requestM aP cP alP wallet w).1 = .error (.paymentRequired 0)) ∧
    (∀ (o : PaymentOption) (rest : List PaymentOption),
        resp.body.accepts = some (o :: rest) → o.maxAmountRequired = none →
        (requestM aP cP alP wallet w).1 = .error (.paymentRequired 0)) ∧
    paymentRequiredAmountDollars 0 = 0 := by
  have hbase : ∀ a, paymentRequiredAmount resp.body = .ok a →
      (requestM aP cP alP wallet w).1 = .error (.paymentRequired a) := by
    intro a hp
    unfold requestM
    rw [hfirst]
    simp [hstatus, hno, hp]
  refine ⟨?_, ?_, by norm_num [paymentRequiredAmountDollars]⟩
  · intro hacc
    refine hbase 0 ?_
    unfold paymentRequiredAmount
    rw [hacc]
  · intro o rest hacc hno'
    refine hbase 0 ?_
    unfold paymentRequiredAmount
    rw [hacc]
    simp [hno']

theorem c10_witness :
    (wNoAccepts.first = .ok ⟨402, ⟨none⟩, "x"⟩ ∧ (false && true) = false ∧
      (⟨none⟩ : Challenge).accepts = none ∧ optNoAmount.maxAmountRequired = none) ∧
    (requestM true true false "W" wNoAccepts).1 = .error (.paymentRequired 0) ∧
    (requestM true true false "W" wNoAmount).1 = .error (.paymentRequired 0) ∧
    paymentRequiredAmountDollars 0 = 0 :=
  ⟨⟨rfl, rfl, rfl, rfl⟩,
    (c10_disallowed_zero_amount true true false "W" wNoAccepts ⟨402, ⟨none⟩, "x"⟩
      rfl rfl rfl).1 rfl,
    (c10_disallowed_zero_amount true true false "W" wNoAmount ⟨402, ⟨some [optNoAmount]⟩, "x"⟩
      rfl rfl rfl).2.1 optNoAmount [] rfl rfl,
    (c10_disallowed_zero_amount true true false "W" wNoAccepts ⟨402, ⟨none⟩, "x"⟩
      rfl rfl rfl).2.2⟩
